import Mathlib

/-!
Verification development for the nanobot agent runtime.

Shallow embedding of the orchestration core:
  * `src/nanobot/agent/loop.py`      — AgentLoop (turn engine, system-message routing)
  * `src/nanobot/agent/subagent.py`  — SubagentManager (background turns, announce protocol)
  * `src/nanobot/agent/tools/base.py`        — Tool.validate_params (JSON-schema validation)
  * `src/nanobot/agent/tools/filesystem.py`  — _resolve_path, EditFileTool
  * `src/nanobot/bus/queue.py`       — MessageBus.dispatch_outbound
  * `src/nanobot/providers/litellm_provider.py` — LiteLLMProvider.chat error recovery

Python strings are embedded as `List Char`; machine-level I/O (the actual LLM call,
the file system, the network) is abstracted as explicit oracle parameters.
-/

set_option maxHeartbeats 1000000

/-- Python strings are embedded as lists of characters. -/
abbrev Str := List Char

/-- JSON-compatible values (tool-call arguments and JSON-schema components).
`int` covers Python ints; Python `bool` is kept distinct because `isinstance`
treats `bool` as a subtype of `int` (handled in `typeMatches`). Floats do not
occur in the repository's schemas and are not modelled. -/
inductive JVal where
  | null : JVal
  | bool (b : Bool) : JVal
  | int (n : Int) : JVal
  | str (s : String) : JVal
  | arr (xs : List JVal) : JVal
  | obj (fields : List (String × JVal)) : JVal

/-- Structural equality of JSON values (Python `==` on parsed JSON, used by the
`enum` check of Tool._validate). Python's `True == 1` numeric coercion is not
modelled; no schema in the repository mixes booleans into an enum. -/
def JVal.beq : JVal → JVal → Bool
  | .null, .null => true
  | .bool a, .bool b => a == b
  | .int a, .int b => a == b
  | .str a, .str b => a == b
  | .arr [], .arr [] => true
  | .arr (x :: xs), .arr (y :: ys) => JVal.beq x y && JVal.beq (.arr xs) (.arr ys)
  | .obj [], .obj [] => true
  | .obj ((k, v) :: fs), .obj ((l, w) :: gs) =>
      k == l && JVal.beq v w && JVal.beq (.obj fs) (.obj gs)
  | _, _ => false
termination_by a b => sizeOf a + sizeOf b
decreasing_by all_goals (simp; omega)

instance : BEq JVal := ⟨JVal.beq⟩

/-- Modelled from the spec: `nanobot/bus/events.py` is not under src/.
§3 DATA MODEL: InboundMessage = channel, sender_id, chat_id, content,
media (ordered sequence of file paths, optional). Immutable once constructed. -/
structure InboundMessage where
  channel : Str
  senderId : Str
  chatId : Str
  content : Str
  media : List Str := []
deriving DecidableEq, Repr

/-- Modelled from the spec: `nanobot/bus/events.py` is not under src/.
§3 DATA MODEL: OutboundMessage = channel, chat_id, content. -/
structure OutboundMessage where
  channel : Str
  chatId : Str
  content : Str
deriving DecidableEq, Repr

/-- Modelled from the spec: `nanobot/providers/base.py` is not under src/.
§3 DATA MODEL: ToolCallRequest = id (opaque correlation token), name,
arguments (mapping of string to arbitrary JSON-compatible value). -/
structure ToolCallRequest where
  id : Str
  name : Str
  arguments : JVal

/-- Modelled from the spec: `nanobot/providers/base.py` is not under src/.
§6 LLM provider contract: chat returns content: string|null, tool_calls
(ordered sequence of ToolCallRequest, empty by default), finish_reason,
reasoning_content: string|null. -/
structure LLMResponse where
  content : Option Str
  toolCalls : List ToolCallRequest := []
  finishReason : Str := "stop".toList
  reasoningContent : Option Str := none

/-- Modelled from the spec: `has_tool_calls` is true exactly when the tool-call
list is non-empty (§4.2 "if the response carries tool calls"). -/
def LLMResponse.hasToolCalls (r : LLMResponse) : Bool :=
  !r.toolCalls.isEmpty

/-- One entry of the per-turn conversation message list (a Python dict in the
source). `toolCalls` mirrors the serialized tool-call dicts of loop.py
lines 204-214; the `json.dumps` wire serialization of the argument mapping is
abstracted by keeping the structured value. -/
structure ChatMsg where
  role : Str
  content : Str
  toolCalls : List ToolCallRequest := []
  toolCallId : Option Str := none
  name : Option Str := none
  reasoning : Option Str := none

/-- Modelled from the spec: `nanobot/session/manager.py` is not under src/.
§3 DATA MODEL: Session = key (channel:chat_id), history = ordered sequence of
role/content entries. -/
structure SessionEntry where
  role : Str
  content : Str
deriving DecidableEq, Repr

/-- Modelled from the spec: `nanobot/session/manager.py` is not under src/. -/
structure Session where
  key : Str
  history : List SessionEntry
deriving DecidableEq, Repr

/-- Modelled from the spec: Session.add_message appends one entry at the end of
the history (§3: "history length only grows (no in-place edits); entries are
insertion-ordered"; §4.2: "appends exactly one user entry and one assistant
entry"). -/
def Session.addMessage (s : Session) (role content : Str) : Session :=
  { s with history := s.history ++ [⟨role, content⟩] }

/-- Session history rendered in LLM message format (get_history), as consumed
by ContextBuilder.build_messages. -/
def Session.historyMsgs (s : Session) : List ChatMsg :=
  s.history.map fun e => { role := e.role, content := e.content }

/-- ContextBuilder.build_messages (context.py lines 122-160): system prompt
(with the channel/chat-id session suffix when both are present), then the
history, then the new user message. The system-prompt text itself
(build_system_prompt) is file I/O and is abstracted as the `systemPrompt`
argument; media/image attachment assembly (_build_user_content) is byte-level
I/O and is abstracted to the plain text content. -/
def buildMessages (systemPrompt : Str) (history : List ChatMsg)
    (currentMessage : Str) (channel chatId : Str) : List ChatMsg :=
  let prompt := systemPrompt ++ "\n\n## 当前会话\n渠道：".toList ++ channel
      ++ "\n聊天ID：".toList ++ chatId
  [{ role := "system".toList, content := prompt }]
    ++ history
    ++ [{ role := "user".toList, content := currentMessage }]

/-- ContextBuilder.add_assistant_message (context.py lines 207-236):
content defaults to the empty string, tool_calls recorded when non-empty,
reasoning_content recorded when truthy (non-empty). -/
def addAssistantMessage (messages : List ChatMsg) (content : Option Str)
    (toolCalls : List ToolCallRequest) (reasoning : Option Str) : List ChatMsg :=
  messages ++ [{ role := "assistant".toList,
                 content := content.getD [],
                 toolCalls := toolCalls,
                 reasoning := match reasoning with
                   | some r => if r.isEmpty then none else some r
                   | none => none }]

/-- ContextBuilder.add_tool_result (context.py lines 180-205). -/
def addToolResult (messages : List ChatMsg) (toolCallId toolName result : Str) :
    List ChatMsg :=
  messages ++ [{ role := "tool".toList, content := result,
                 toolCallId := some toolCallId, name := some toolName }]

/-- Outcome of one tool-calling loop: the final content as left by the loop
(`none` when the budget is exhausted, or when a no-tool-call response carried
null content), the number of LLM calls performed, and the accumulated message
list. -/
structure TurnOutcome where
  finalContent : Option Str
  llmCalls : Nat
  messages : List ChatMsg

/-- The tool-calling loop of AgentLoop._process_message (loop.py lines 187-231,
identical shape in _process_system_message lines 295-334). The LLM provider is
abstracted as `oracle : Nat → LLMResponse` (the response to the i-th call;
LiteLLMProvider.chat never raises, see `litellmChat`), and tool execution as
`execTool : Str → JVal → Str` (ToolRegistry.execute returns a string, spec §6).
`iteration` is the Python loop counter before increment; each iteration either
records the assistant tool-call offers followed by one tool result per call
(executed sequentially in the order offered) or terminates with the response
content. -/
def runTurnLoop (oracle : Nat → LLMResponse) (execTool : Str → JVal → Str)
    (messages : List ChatMsg) (iteration maxIterations : Nat) : TurnOutcome :=
  if iteration < maxIterations then
    let response := oracle iteration
    if response.hasToolCalls then
      let msgs1 := addAssistantMessage messages response.content
        response.toolCalls response.reasoningContent
      let msgs2 := response.toolCalls.foldl
        (fun ms tc => addToolResult ms tc.id tc.name (execTool tc.name tc.arguments))
        msgs1
      runTurnLoop oracle execTool msgs2 (iteration + 1) maxIterations
    else
      { finalContent := response.content, llmCalls := iteration + 1,
        messages := messages }
  else
    { finalContent := none, llmCalls := iteration, messages := messages }
termination_by maxIterations - iteration

/-- The fixed fallback string of AgentLoop._process_message (loop.py line 234). -/
def primaryFallback : Str := "我已经完成处理但没有响应可以提供。".toList

/-- The fixed fallback string of AgentLoop._process_system_message
(loop.py line 337). -/
def systemMsgFallback : Str := "Background task completed.".toList

/-- Result of processing one inbound message: the outbound reply and the
updated session. -/
structure ProcessResult where
  outbound : OutboundMessage
  session : Session

/-- AgentLoop._process_message (loop.py lines 144-249) for a non-system
message: build the message list from the session history and the new content,
run the tool-calling loop with the `max_iterations` budget, substitute the
fixed fallback when no final content was produced, append exactly one user and
one assistant entry to the session, and reply to the message's own
channel/chat. Session lookup (get_or_create) is abstracted by passing the
resolved session. -/
def processMessage (oracle : Nat → LLMResponse) (execTool : Str → JVal → Str)
    (systemPrompt : Str) (session : Session) (msg : InboundMessage)
    (maxIterations : Nat) : ProcessResult :=
  let messages := buildMessages systemPrompt session.historyMsgs msg.content
    msg.channel msg.chatId
  let outcome := runTurnLoop oracle execTool messages 0 maxIterations
  let finalContent := outcome.finalContent.getD primaryFallback
  let session1 := session.addMessage ("user".toList) msg.content
  let session2 := session1.addMessage ("assistant".toList) finalContent
  { outbound := { channel := msg.channel, chatId := msg.chatId,
                  content := finalContent },
    session := session2 }

/-- Split a string at the first colon, as Python's chat_id.split(":", 1):
`some (before, after)` when a colon occurs, `none` otherwise. -/
def splitFirstColon : Str → Option (Str × Str)
  | [] => none
  | c :: rest =>
    if c = ':' then some ([], rest)
    else match splitFirstColon rest with
      | some (a, b) => some (c :: a, b)
      | none => none

/-- Origin parsing of AgentLoop._process_system_message (loop.py lines
260-268): split chat_id on the first colon; if no colon is present, the origin
channel falls back to "cli" and the origin chat_id is the message's chat_id. -/
def systemOrigin (chatId : Str) : Str × Str :=
  match splitFirstColon chatId with
  | some (a, b) => (a, b)
  | none => ("cli".toList, chatId)

/-- AgentLoop._process_system_message (loop.py lines 251-348): parse the origin
from chat_id, use the origin session (get_or_create on the origin key,
abstracted by the `store` lookup), run the tool-calling loop on the
announcement content, and address the outbound reply to the origin
channel/chat. -/
def processSystemMessage (oracle : Nat → LLMResponse) (execTool : Str → JVal → Str)
    (systemPrompt : Str) (store : Str → Session) (msg : InboundMessage)
    (maxIterations : Nat) : ProcessResult :=
  let origin := systemOrigin msg.chatId
  let sessionKey := origin.1 ++ ':' :: origin.2
  let session := store sessionKey
  let messages := buildMessages systemPrompt session.historyMsgs msg.content
    origin.1 origin.2
  let outcome := runTurnLoop oracle execTool messages 0 maxIterations
  let finalContent := outcome.finalContent.getD systemMsgFallback
  let session1 := session.addMessage ("user".toList)
    ("[System: ".toList ++ msg.senderId ++ "] ".toList ++ msg.content)
  let session2 := session1.addMessage ("assistant".toList) finalContent
  { outbound := { channel := origin.1, chatId := origin.2,
                  content := finalContent },
    session := session2 }

/-- The system-message dispatch of AgentLoop._process_message (loop.py lines
156-157): a message on channel "system" is handed to
_process_system_message, anything else to the ordinary turn. -/
def processInbound (oracle : Nat → LLMResponse) (execTool : Str → JVal → Str)
    (systemPrompt : Str) (store : Str → Session) (msg : InboundMessage)
    (maxIterations : Nat) : ProcessResult :=
  if msg.channel = "system".toList then
    processSystemMessage oracle execTool systemPrompt store msg maxIterations
  else
    processMessage oracle execTool systemPrompt (store (msg.channel ++ ':' :: msg.chatId))
      msg maxIterations

/-- SubagentManager's iteration budget (subagent.py line 125). -/
def subagentMaxIterations : Nat := 15

/-- The fixed fallback string of SubagentManager._run_subagent
(subagent.py line 178). -/
def subagentFallback : Str := "任务已执行完毕，但未生成最终响应内容。".toList

/-- The subagent tool-calling loop (subagent.py lines 125-174). The provider
call is modelled as `oracle : Nat → Except Str LLMResponse`, whose `.error`
case stands for any exception raised while the background turn runs (the
enclosing `try` of _run_subagent catches it); tool execution is the
`execTool` oracle as in `runTurnLoop`. The subagent appends plain
assistant/tool dict entries (no reasoning_content field, content `or ""`). -/
def runSubagentLoop (oracle : Nat → Except Str LLMResponse)
    (execTool : Str → JVal → Str) (messages : List ChatMsg)
    (iteration maxIterations : Nat) : Except Str (Option Str) :=
  if iteration < maxIterations then
    match oracle iteration with
    | .error e => .error e
    | .ok response =>
      if response.hasToolCalls then
        let msgs1 := messages ++ [{ role := "assistant".toList,
                                    content := (response.content).getD [],
                                    toolCalls := response.toolCalls }]
        let msgs2 := response.toolCalls.foldl
          (fun ms tc => ms ++ [{ role := "tool".toList,
                                 content := execTool tc.name tc.arguments,
                                 toolCallId := some tc.id,
                                 name := some tc.name }])
          msgs1
        runSubagentLoop oracle execTool msgs2 (iteration + 1) maxIterations
      else
        .ok response.content
  else
    .ok none
termination_by maxIterations - iteration

/-- SubagentManager._build_subagent_prompt (subagent.py lines 227-256). -/
def buildSubagentPrompt (workspace task : Str) : Str :=
  "# 子代理执行规则\n\n你是由主代理启动的专用子代理，仅负责完成指定任务。\n\n## 核心任务\n".toList
  ++ task
  ++ "\n\n## 执行规则\n1. 聚焦任务 - 仅完成分配的任务，不执行其他无关操作\n2. 你的最终响应将被反馈给主代理\n3. 不主动发起对话，不承接额外的附带任务\n4. 发现和结论需简洁且信息完整\n\n## 可执行操作\n- 读取和写入工作目录内的文件\n- 执行shell命令\n- 搜索网页并获取网页内容\n- 全面完成分配的任务\n\n## 禁止操作\n- 直接向用户发送消息（无消息发送工具可用）\n- 生成其他子代理\n- 访问主代理的对话历史\n\n## 工作目录\n你的工作目录路径为: ".toList
  ++ workspace
  ++ "\n\n任务完成后，请提供清晰的结果总结或操作记录。".toList

/-- Status text of SubagentManager._announce_result (subagent.py line 202). -/
def statusText (status : Str) : Str :=
  if status = "ok".toList then "执行成功".toList else "执行失败".toList

/-- Announce content template of SubagentManager._announce_result
(subagent.py lines 205-213). -/
def announceContent (label task result status : Str) : Str :=
  "[子代理'".toList ++ label ++ "' ".toList ++ statusText status
  ++ "]\n\n任务描述: ".toList ++ task
  ++ "\n\n执行结果:\n".toList ++ result
  ++ "\n\n请将以上内容用自然语言简洁总结后回复用户（1-2句话即可）。\n不要提及「子代理」「任务ID」等技术细节。".toList

/-- The synthetic InboundMessage constructed and published by
SubagentManager._announce_result (subagent.py lines 216-224): channel
"system", sender "subagent", chat_id "origin_channel:origin_chat_id". -/
def announceMsg (label task result : Str) (origin : Str × Str) (status : Str) :
    InboundMessage :=
  { channel := "system".toList,
    senderId := "subagent".toList,
    chatId := origin.1 ++ ':' :: origin.2,
    content := announceContent label task result status }

/-- The initial message list of the subagent turn (subagent.py lines
118-122): the task-specific system prompt followed by the task as the user
message. -/
def subagentInitialMessages (workspace task : Str) : List ChatMsg :=
  [{ role := "system".toList, content := buildSubagentPrompt workspace task },
   { role := "user".toList, content := task }]

/-- SubagentManager._run_subagent (subagent.py lines 90-189): run the bounded
subagent loop under a catch-all; on normal completion announce the final
result (fallback when the loop produced none) with status "ok", on any
exception announce the error text with status "error". The returned list is
the sequence of messages published onto the bus's inbound queue
(`bus.publish_inbound`). -/
def runSubagent (oracle : Nat → Except Str LLMResponse)
    (execTool : Str → JVal → Str) (workspace task label : Str)
    (origin : Str × Str) : List InboundMessage :=
  match runSubagentLoop oracle execTool (subagentInitialMessages workspace task)
      0 subagentMaxIterations with
  | .ok finalResult =>
      [announceMsg label task (finalResult.getD subagentFallback) origin ("ok".toList)]
  | .error e =>
      [announceMsg label task ("错误信息: ".toList ++ e) origin ("error".toList)]

/-- A registered tool instance together with its construction-time
configuration, as registered by AgentLoop._register_default_tools (loop.py
lines 78-108) and SubagentManager._run_subagent (subagent.py lines 100-115).
The tools defined outside src/ (shell, web, message, spawn, cron) are
modelled from the spec as opaque capabilities carrying their constructor
arguments. -/
inductive ToolInstance where
  | readFile (allowedDir : Option Str)
  | writeFile (allowedDir : Option Str)
  | editFile (allowedDir : Option Str)
  | listDir (allowedDir : Option Str)
  | execShell (workingDir : Str) (timeout : Nat) (restrictToWorkspace : Bool)
  | webSearch (apiKey : Option Str)
  | webFetch
  | message
  | spawn
  | cron
deriving DecidableEq, Repr

/-- Registered name of each tool. read_file/write_file/edit_file/list_dir are
the names declared in tools/filesystem.py; message, spawn and cron are the
names AgentLoop looks up (loop.py lines 166-176); exec, web_search and
web_fetch are modelled from the spec (shell/exec and web-search/fetch tools,
their modules are not under src/). -/
def ToolInstance.toolName : ToolInstance → Str
  | readFile _ => "read_file".toList
  | writeFile _ => "write_file".toList
  | editFile _ => "edit_file".toList
  | listDir _ => "list_dir".toList
  | execShell _ _ _ => "exec".toList
  | webSearch _ => "web_search".toList
  | webFetch => "web_fetch".toList
  | message => "message".toList
  | spawn => "spawn".toList
  | cron => "cron".toList

/-- AgentLoop._register_default_tools (loop.py lines 78-108): the primary
agent's tool registry, in registration order. `allowed_dir` is the workspace
when restrict_to_workspace is set, else None; the cron tool is registered only
when a cron service is configured. -/
def primaryTools (workspace : Str) (restrictToWorkspace : Bool)
    (execTimeout : Nat) (braveApiKey : Option Str) (hasCronService : Bool) :
    List ToolInstance :=
  let allowedDir := if restrictToWorkspace then some workspace else none
  [ToolInstance.readFile allowedDir,
   ToolInstance.writeFile allowedDir,
   ToolInstance.editFile allowedDir,
   ToolInstance.listDir allowedDir,
   ToolInstance.execShell workspace execTimeout restrictToWorkspace,
   ToolInstance.webSearch braveApiKey,
   ToolInstance.webFetch,
   ToolInstance.message,
   ToolInstance.spawn]
  ++ (if hasCronService then [ToolInstance.cron] else [])

/-- The names of the tools registered from tools/filesystem.py by
AgentLoop._register_default_tools (loop.py lines 80-85). -/
def primaryFilesystemToolNames : List Str :=
  ["read_file".toList, "write_file".toList, "edit_file".toList, "list_dir".toList]

/-- SubagentManager._run_subagent tool registry (subagent.py lines 100-115),
built fresh per spawn with the manager's own workspace / restriction /
exec-timeout / API-key settings (which AgentLoop passes through unchanged,
loop.py lines 65-73). -/
def subagentTools (workspace : Str) (restrictToWorkspace : Bool)
    (execTimeout : Nat) (braveApiKey : Option Str) : List ToolInstance :=
  let allowedDir := if restrictToWorkspace then some workspace else none
  [ToolInstance.readFile allowedDir,
   ToolInstance.writeFile allowedDir,
   ToolInstance.listDir allowedDir,
   ToolInstance.execShell workspace execTimeout restrictToWorkspace,
   ToolInstance.webSearch braveApiKey,
   ToolInstance.webFetch]

/-- Error-content prefix of LiteLLMProvider.chat (litellm_provider.py
line 152). -/
def llmErrorPrefix : Str := "调用 LLM 时出错: ".toList

/-- LiteLLMProvider.chat error recovery (litellm_provider.py lines 146-154):
the `try` block covers both the completion call and response parsing, so its
outcome is modelled as `completion : Except Str LLMResponse`, `.error e`
standing for any raised exception with text e. On success the parsed response
is returned; on failure a synthetic response is returned whose content is the
error string, whose tool_calls take the (empty) default, and whose
finish_reason is "error". -/
def litellmChat (completion : Except Str LLMResponse) : LLMResponse :=
  match completion with
  | .ok response => response
  | .error e =>
      { content := some (llmErrorPrefix ++ e),
        finishReason := "error".toList }

/-- A JSON schema as consumed by Tool._validate (tools/base.py lines 62-91):
the dict keys the code reads, each `Option` marking presence of the key
("properties" and "required" default to empty per `.get(..., {})` / `.get(..., [])`).
Numeric bounds are embedded as integers (no schema in the repository uses
fractional bounds). -/
inductive Schema where
  | mk (type : Option String) (enum : Option (List JVal))
       (minimum : Option Int) (maximum : Option Int)
       (minLength : Option Nat) (maxLength : Option Nat)
       (properties : List (String × Schema)) (required : List String)
       (items : Option Schema)

/-- Schema field accessors. -/
def Schema.type : Schema → Option String
  | .mk t _ _ _ _ _ _ _ _ => t

def Schema.maximum : Schema → Option Int
  | .mk _ _ _ mx _ _ _ _ _ => mx

def Schema.properties : Schema → List (String × Schema)
  | .mk _ _ _ _ _ _ props _ _ => props

def Schema.required : Schema → List String
  | .mk _ _ _ _ _ _ _ req _ => req

/-- Membership of a type name in Tool._TYPE_MAP (tools/base.py lines 15-22). -/
def inTypeMap (t : String) : Bool :=
  t == "string" || t == "integer" || t == "number" || t == "boolean"
    || t == "array" || t == "object"

/-- Python isinstance against _TYPE_MAP entries. A Python bool is an instance
of int, so booleans satisfy "integer" and "number"; None matches nothing. -/
def typeMatches (t : String) (v : JVal) : Bool :=
  match v with
  | .str _ => t == "string"
  | .int _ => t == "integer" || t == "number"
  | .bool _ => t == "boolean" || t == "integer" || t == "number"
  | .arr _ => t == "array"
  | .obj _ => t == "object"
  | .null => false

/-- The early type-check of Tool._validate (tools/base.py line 64): fails when
a type is declared, known to _TYPE_MAP, and the value is not an instance. -/
def typeCheckFails (t : Option String) (v : JVal) : Bool :=
  match t with
  | some ty => inTypeMap ty && !typeMatches ty v
  | none => false

/-- Numeric magnitude used by the minimum/maximum comparisons (Python compares
ints and bools directly; True counts as 1 and False as 0). -/
def JVal.numVal : JVal → Int
  | .int n => n
  | .bool b => if b then 1 else 0
  | _ => 0

/-- Character length of a string value (Python len on str). -/
def JVal.strLen : JVal → Nat
  | .str s => s.length
  | _ => 0

/-- Rendering of an enum member inside the "must be one of" message. The exact
Python repr of nested values is abstracted (the repository's enums hold only
strings). -/
def JVal.text : JVal → String
  | .null => "None"
  | .bool b => if b then "True" else "False"
  | .int n => toString n
  | .str s => s
  | .arr _ => "array"
  | .obj _ => "object"

/-- Rendering of an enum list inside the "must be one of" message. -/
def enumText (vs : List JVal) : String :=
  "[" ++ String.intercalate ", " (vs.map JVal.text) ++ "]"

/-- Nested-property path formatting (tools/base.py lines 84, 87):
`path + '.' + k if path else k`. -/
def childPath (path k : String) : String :=
  if path == "" then k else path ++ "." ++ k

/-- Array-item path formatting (tools/base.py line 90). -/
def arrayPath (path : String) (i : Nat) : String :=
  path ++ "[" ++ toString i ++ "]"

mutual

/-- Tool._validate (tools/base.py lines 62-91). Early single-error return on a
failed type check; otherwise the violation list accumulates, in source order:
enum, minimum, maximum, minLength, maxLength, missing required keys, nested
property violations (iterating the value's fields in order and descending into
declared properties), and array item violations. -/
def validate (v : JVal) (s : Schema) (path : String) : List String :=
  match s with
  | .mk t en mn mx mnl mxl props req items =>
    let label := if path == "" then "parameter" else path
    if typeCheckFails t v then [label ++ " should be " ++ t.getD ""]
    else
      (match en with
       | some vs => if vs.any (fun w => JVal.beq w v) then []
                    else [label ++ " must be one of " ++ enumText vs]
       | none => [])
      ++ (if t == some "integer" || t == some "number" then
            (match mn with
             | some m => if v.numVal < m then [label ++ " must be >= " ++ toString m] else []
             | none => [])
            ++ (match mx with
             | some m => if v.numVal > m then [label ++ " must be <= " ++ toString m] else []
             | none => [])
          else [])
      ++ (if t == some "string" then
            (match mnl with
             | some m => if v.strLen < m then [label ++ " must be at least " ++ toString m ++ " chars"] else []
             | none => [])
            ++ (match mxl with
             | some m => if v.strLen > m then [label ++ " must be at most " ++ toString m ++ " chars"] else []
             | none => [])
          else [])
      ++ (if t == some "object" then
            (match v with
             | .obj fields =>
                req.filterMap (fun k =>
                  if fields.any (fun f => f.1 == k) then none
                  else some ("missing required " ++ childPath path k))
                ++ validateProps fields props path
             | _ => [])
          else [])
      ++ (if t == some "array" then
            (match items, v with
             | some itemSchema, .arr xs => validateItems xs itemSchema path 0
             | _, _ => [])
          else [])
termination_by (sizeOf s, 0, 0)

/-- The property loop of Tool._validate (tools/base.py lines 85-87): for each
field of the value, in order, descend when a matching property schema is
declared. -/
def validateProps (fields : List (String × JVal)) (props : List (String × Schema))
    (path : String) : List String :=
  match fields with
  | [] => []
  | f :: rest =>
    (match h : props.find? (fun p => p.1 == f.1) with
     | some p => validate f.2 p.2 (childPath path f.1)
     | none => [])
    ++ validateProps rest props path
termination_by (sizeOf props, 0, sizeOf fields)
decreasing_by
· have hm := List.mem_of_find?_eq_some h
  have hs := List.sizeOf_lt_of_mem hm
  have h2 : sizeOf p.2 < sizeOf props := by
    cases p with
    | mk a b => simp at hs ⊢; omega
  exact Prod.Lex.left _ _ h2
· apply Prod.Lex.right
  apply Prod.Lex.right
  simp

/-- The array-item loop of Tool._validate (tools/base.py lines 88-90). -/
def validateItems (xs : List JVal) (itemSchema : Schema) (path : String)
    (i : Nat) : List String :=
  match xs with
  | [] => []
  | x :: rest =>
    validate x itemSchema (arrayPath path i) ++ validateItems rest itemSchema path (i + 1)
termination_by (sizeOf itemSchema, 1, sizeOf xs)

end

/-- Tool.validate_params (tools/base.py lines 55-60): reject (raise ValueError,
modelled as `.error`) unless the schema's type defaults to or equals "object",
then validate against the schema with its type forced to "object"
(`{**schema, "type": "object"}`). -/
def validateParams (s : Schema) (params : JVal) : Except String (List String) :=
  match s with
  | .mk t en mn mx mnl mxl props req items =>
    if (t.getD "object") != "object" then
      .error ("Schema must be object type, got " ++ t.getD "object")
    else
      .ok (validate params (.mk (some "object") en mn mx mnl mxl props req items) "")

/-- A tool as seen by the registry: declared name, parameter schema, and the
execute behaviour abstracted as a function from arguments to result text. -/
structure ToolModel where
  name : String
  parameters : Schema
  run : JVal → String

/-- Modelled from the spec: `nanobot/agent/tools/registry.py` is not under
src/. §6 Tool contract: "parameter validation against the schema ... happens
before execution"; §7(b) ToolValidationError: "bad arguments; surfaced as
textual tool-result content". The first component records whether the tool's
execute ran; on a validation failure it does not, and the violation text is
returned instead. -/
def registryExecute (tool : ToolModel) (params : JVal) : Bool × String :=
  match validateParams tool.parameters params with
  | .error e => (false, e)
  | .ok errs =>
    if errs.isEmpty then (true, tool.run params)
    else (false, "Invalid parameters: " ++ String.intercalate "; " errs)

/-- Non-overlapping left-to-right substring counting for a non-empty pattern
(the semantics of Python str.count as used by EditFileTool): at a position not
consumed by an earlier match, a match of the pattern counts one occurrence and
consumes the pattern's characters; `skip` is the number of characters of the
current match still to consume. Structural recursion on the scanned string. -/
def countOccFrom (sub : Str) : Str → Nat → Nat
  | [], _ => 0
  | c :: rest, 0 =>
    if sub.isPrefixOf (c :: rest) then 1 + countOccFrom sub rest (sub.length - 1)
    else countOccFrom sub rest 0
  | _ :: rest, k + 1 => countOccFrom sub rest k

/-- Python content.count(old_text) (EditFileTool.execute, filesystem.py line
150): an empty pattern counts len + 1 occurrences. -/
def countOcc (s sub : Str) : Nat :=
  if sub.isEmpty then s.length + 1 else countOccFrom sub s 0

/-- First-occurrence replacement for a non-empty pattern (Python
str.replace(old, new, 1)). -/
def replaceFirstFrom (old new : Str) : Str → Str
  | [] => []
  | c :: rest =>
    if old.isPrefixOf (c :: rest) then new ++ rest.drop (old.length - 1)
    else c :: replaceFirstFrom old new rest

/-- Python content.replace(old_text, new_text, 1) (filesystem.py line 154):
an empty pattern inserts the replacement at the front. -/
def replaceFirst (s old new : Str) : Str :=
  if old.isEmpty then new ++ s else replaceFirstFrom old new s

/-- The path guard _resolve_path (filesystem.py lines 9-14). Path resolution
(expanduser + resolve, an OS operation) is abstracted as the `resolve`
argument; the admission test is the source's string-prefix test
`str(resolved).startswith(str(allowed_dir.resolve()))`, and rejection raises
PermissionError with the source's message (modelled as `.error`). With no
allowed directory every path is admitted. -/
def resolveCheck (resolve : Str → Str) (allowedDir : Option Str) (path : Str) :
    Except Str Str :=
  let resolved := resolve path
  match allowedDir with
  | some dir =>
    if (resolve dir).isPrefixOf resolved then .ok resolved
    else .error ("路径 ".toList ++ path ++ " 在允许的目录 ".toList ++ dir ++ " 之外".toList)
  | none => .ok resolved

/-- ReadFileTool.execute (filesystem.py lines 44-57). The file system is
abstracted as `fs : Str → Option Str`, mapping a resolved path of an existing
regular file to its content (the exists / is_file distinction is collapsed
into presence in `fs`, whose error branches the claims do not distinguish).
A PermissionError from the path guard is caught and returned as an error
string; no branch raises. -/
def readFileExecute (resolve : Str → Str) (allowedDir : Option Str)
    (fs : Str → Option Str) (path : Str) : Str :=
  match resolveCheck resolve allowedDir path with
  | .error e => "错误：".toList ++ e
  | .ok resolved =>
    match fs resolved with
    | none => "错误：未找到文件：".toList ++ path
    | some content => content

/-- EditFileTool.execute (filesystem.py lines 138-161): resolve the path
(PermissionError returned as an error string), require the file to exist,
require old_text to occur, refuse with an ambiguity warning reporting the
occurrence count when it occurs more than once, and otherwise replace exactly
the first occurrence and write the file back. Returns the result message and
the file system after the call. -/
def editFileExecute (resolve : Str → Str) (allowedDir : Option Str)
    (fs : Str → Option Str) (path oldText newText : Str) :
    Str × (Str → Option Str) :=
  match resolveCheck resolve allowedDir path with
  | .error e => ("错误：".toList ++ e, fs)
  | .ok resolved =>
    match fs resolved with
    | none => ("错误：未找到文件：".toList ++ path, fs)
    | some content =>
      if countOcc content oldText == 0 then
        ("错误：在文件中未找到old_text。请确保它完全匹配。".toList, fs)
      else if countOcc content oldText > 1 then
        ("警告：old_text出现了".toList ++ (toString (countOcc content oldText)).toList
           ++ "次。请提供更多上下文使其唯一。".toList, fs)
      else
        ("成功编辑了".toList ++ path,
         fun p => if p = resolved then some (replaceFirst content oldText newText) else fs p)

/-- The MessageBus outbound subscriber table (queue.py line 22), with
callbacks abstracted as opaque tokens. -/
abbrev Subscribers := List (Str × List Nat)

/-- Python self._outbound_subscribers.get(msg.channel, []) (queue.py line 60). -/
def subscribersFor (table : Subscribers) (channel : Str) : List Nat :=
  match table.find? (fun e => e.1 == channel) with
  | some e => e.2
  | none => []

/-- MessageBus.dispatch_outbound (queue.py lines 51-67), applied to the queued
outbound messages in FIFO order. The result is the sequence of callback
invocations (callback token, message); for each dequeued message every
subscriber of its channel is invoked in registration order, a message whose
channel has no subscribers produces no invocation, and the loop then continues
with the next message — nothing is ever re-queued. Per-callback exceptions are
caught and logged inside the loop (lines 63-65) and do not change the
invocation sequence. The bounded 1-second wait and the stop flag are real-time
behaviour outside the shallow embedding. -/
def dispatchOutbound (table : Subscribers) : List OutboundMessage → List (Nat × OutboundMessage)
  | [] => []
  | m :: rest =>
    (subscribersFor table m.channel).map (fun cb => (cb, m))
      ++ dispatchOutbound table rest

/-- The data of one complete primary turn: the per-turn oracles and the
inbound message (spec §8: "For all sequences of N inbound messages to the
same session"). -/
structure TurnInput where
  oracle : Nat → LLMResponse
  execTool : Str → JVal → Str
  systemPrompt : Str
  msg : InboundMessage
  maxIterations : Nat

/-- Sequential processing of a list of inbound messages against the same
session (the Agent Loop drains inbound strictly FIFO and processes one
message at a time, spec §4.1/§5). -/
def processAll (session : Session) : List TurnInput → Session
  | [] => session
  | t :: rest =>
    processAll (processMessage t.oracle t.execTool t.systemPrompt session
      t.msg t.maxIterations).session rest

/-- C6: for every chat invocation, no exception escapes: `litellmChat` is a
total function, and when the underlying completion call raises any exception
`e`, it returns a response whose content is the error string, whose
tool_calls list is empty, and whose finish_reason is "error"; a successful
completion is returned as parsed, so the turn loop's normal no-tool-calls
termination path handles the error case. -/
theorem c6_provider_error_recovery :
    (∀ e : Str, litellmChat (.error e)
        = { content := some (llmErrorPrefix ++ e),
            toolCalls := [],
            finishReason := "error".toList,
            reasoningContent := none })
    ∧ (∀ e : Str, (litellmChat (.error e)).toolCalls = []
        ∧ (litellmChat (.error e)).finishReason = "error".toList
        ∧ (litellmChat (.error e)).content = some (llmErrorPrefix ++ e))
    ∧ (∀ r : LLMResponse, litellmChat (.ok r) = r) :=
  ⟨fun _ => rfl, fun _ => ⟨rfl, rfl, rfl⟩, fun _ => rfl⟩

/-- C10: an outbound message whose channel has no registered subscriber is
dequeued and silently discarded by the dispatch loop: it produces no callback
invocation and is not re-queued, and dispatching the queue with it at the
front is exactly dispatching the rest of the queue. -/
theorem c10_unsubscribed_outbound_discarded (table : Subscribers)
    (m : OutboundMessage) (rest : List OutboundMessage)
    (h : subscribersFor table m.channel = []) :
    dispatchOutbound table (m :: rest) = dispatchOutbound table rest := by
  simp [dispatchOutbound, h]

/-- Witness for C10: a message on channel "discord" with only a "telegram"
subscriber registered is discarded and the loop continues. -/
theorem c10_witness :
    subscribersFor [("telegram".toList, [0])] ("discord".toList) = []
    ∧ dispatchOutbound [("telegram".toList, [0])]
        [{ channel := "discord".toList, chatId := "1".toList, content := "hi".toList },
         { channel := "telegram".toList, chatId := "2".toList, content := "yo".toList }]
      = dispatchOutbound [("telegram".toList, [0])]
        [{ channel := "telegram".toList, chatId := "2".toList, content := "yo".toList }] :=
  ⟨by decide,
   c10_unsubscribed_outbound_discarded [("telegram".toList, [0])]
     { channel := "discord".toList, chatId := "1".toList, content := "hi".toList }
     [{ channel := "telegram".toList, chatId := "2".toList, content := "yo".toList }]
     (by decide)⟩

/-- C9: the path guard admits exactly those paths whose resolved string form
starts with the allowed directory's resolved string form — a string-prefix
test, not directory containment — so the sibling path /ws2/f is admitted when
the allowed directory is /ws (and ReadFileTool.execute serves it), and every
rejected path makes execute return an error string rather than raise. -/
theorem c9_resolve_path_admission :
    (∀ (resolve : Str → Str) (allowed path : Str),
        resolveCheck resolve (some allowed) path
          = if (resolve allowed).isPrefixOf (resolve path)
            then .ok (resolve path)
            else .error ("路径 ".toList ++ path ++ " 在允许的目录 ".toList
                          ++ allowed ++ " 之外".toList))
    ∧ resolveCheck id (some ("/ws".toList)) ("/ws2/f".toList) = .ok ("/ws2/f".toList)
    ∧ readFileExecute id (some ("/ws".toList))
        (fun p => if p = "/ws2/f".toList then some ("data".toList) else none)
        ("/ws2/f".toList) = "data".toList
    ∧ (∀ (resolve : Str → Str) (allowed path : Str) (fs : Str → Option Str),
        (resolve allowed).isPrefixOf (resolve path) = false →
        readFileExecute resolve (some allowed) fs path
          = "错误：".toList ++ ("路径 ".toList ++ path ++ " 在允许的目录 ".toList
              ++ allowed ++ " 之外".toList)) := by
  refine ⟨fun resolve allowed path => rfl, by rfl, by decide,
          fun resolve allowed path fs h => ?_⟩
  simp [readFileExecute, resolveCheck, h]

/-- Witness for C9: with allowed directory /ws, the path /etc/passwd is
rejected and ReadFileTool.execute returns the error string. -/
theorem c9_witness :
    readFileExecute id (some ("/ws".toList)) (fun _ => none) ("/etc/passwd".toList)
      = "错误：".toList ++ ("路径 ".toList ++ "/etc/passwd".toList
          ++ " 在允许的目录 ".toList ++ "/ws".toList ++ " 之外".toList) :=
  c9_resolve_path_admission.2.2.2 id ("/ws".toList) ("/etc/passwd".toList)
    (fun _ => none) (by decide)

/-- C5 counterexample: edit_file is one of the filesystem tools the primary
agent registers, but the subagent registry does not include it, refuting
"includes the filesystem ... tools" as stated (shown at workspace /ws with
workspace restriction on, timeout 60, no API key). -/
theorem c5_counterexample :
    "edit_file".toList ∈ primaryFilesystemToolNames
    ∧ "edit_file".toList
        ∈ (primaryTools ("/ws".toList) true 60 none false).map ToolInstance.toolName
    ∧ "edit_file".toList
        ∉ (subagentTools ("/ws".toList) true 60 none).map ToolInstance.toolName := by
  refine ⟨by decide, by decide, by decide⟩

/-- C5 (amended): the subagent registry is exactly the primary registry with
the edit_file, message, spawn and cron tools removed: it excludes the
messaging and subagent-spawning tools, and includes the read/write/list
filesystem tools, the shell tool and the web tools with identical
configuration (same allowed directory, working directory, timeout,
workspace restriction and API key) as the primary agent's registry. -/
theorem c5_subagent_registry_amended (workspace : Str) (restrictToWorkspace : Bool)
    (execTimeout : Nat) (braveApiKey : Option Str) (hasCronService : Bool) :
    subagentTools workspace restrictToWorkspace execTimeout braveApiKey
      = (primaryTools workspace restrictToWorkspace execTimeout braveApiKey
          hasCronService).filter
          (fun t => !(["edit_file".toList, "message".toList, "spawn".toList,
                       "cron".toList].contains t.toolName))
    ∧ "message".toList
        ∉ (subagentTools workspace restrictToWorkspace execTimeout braveApiKey).map
            ToolInstance.toolName
    ∧ "spawn".toList
        ∉ (subagentTools workspace restrictToWorkspace execTimeout braveApiKey).map
            ToolInstance.toolName := by
  cases hasCronService <;>
    simp [subagentTools, primaryTools, ToolInstance.toolName, List.filter]

/-- C8: for a file whose content contains old_text two or more times,
EditFileTool.execute returns the ambiguity message reporting the occurrence
count and leaves the file system unchanged; and the file system is changed
only when old_text occurs exactly once, in which case exactly the first
occurrence is replaced. -/
theorem c8_edit_ambiguity (resolve : Str → Str) (allowedDir : Option Str)
    (fs : Str → Option Str) (path oldText newText resolved content : Str)
    (hres : resolveCheck resolve allowedDir path = .ok resolved)
    (hfs : fs resolved = some content) :
    (2 ≤ countOcc content oldText →
      editFileExecute resolve allowedDir fs path oldText newText
        = ("警告：old_text出现了".toList ++ (toString (countOcc content oldText)).toList
            ++ "次。请提供更多上下文使其唯一。".toList, fs))
    ∧ ((editFileExecute resolve allowedDir fs path oldText newText).2 ≠ fs →
        countOcc content oldText = 1
        ∧ (editFileExecute resolve allowedDir fs path oldText newText).2
            = fun p => if p = resolved then some (replaceFirst content oldText newText)
                       else fs p) := by
  have hmain : editFileExecute resolve allowedDir fs path oldText newText
      = if countOcc content oldText == 0 then
          ("错误：在文件中未找到old_text。请确保它完全匹配。".toList, fs)
        else if countOcc content oldText > 1 then
          ("警告：old_text出现了".toList ++ (toString (countOcc content oldText)).toList
            ++ "次。请提供更多上下文使其唯一。".toList, fs)
        else
          ("成功编辑了".toList ++ path,
           fun p => if p = resolved then some (replaceFirst content oldText newText)
                    else fs p) := by
    simp only [editFileExecute, hres, hfs]
  constructor
  · intro h2
    rw [hmain]
    have h0 : (countOcc content oldText == 0) = false := by
      simp only [beq_eq_false_iff_ne, ne_eq]
      omega
    have h1 : countOcc content oldText > 1 := by omega
    simp [h0, h1]
  · intro hne
    rw [hmain] at hne
    by_cases h0 : (countOcc content oldText == 0) = true
    · rw [if_pos h0] at hne
      simp at hne
    · rw [if_neg h0] at hne
      by_cases h1 : countOcc content oldText > 1
      · rw [if_pos h1] at hne
        simp at hne
      · have hc : countOcc content oldText = 1 := by
          simp only [beq_iff_eq] at h0
          omega
        refine ⟨hc, ?_⟩
        rw [hmain, if_neg h0, if_neg h1]

/-- Witness for C8: in the file /f with content "abab", old_text "ab" occurs
twice, and the edit is refused with the ambiguity warning, leaving the file
system unchanged. -/
theorem c8_witness :
    2 ≤ countOcc ("abab".toList) ("ab".toList)
    ∧ editFileExecute id none
        (fun p => if p = "/f".toList then some ("abab".toList) else none)
        ("/f".toList) ("ab".toList) ("x".toList)
      = ("警告：old_text出现了".toList
          ++ (toString (countOcc ("abab".toList) ("ab".toList))).toList
          ++ "次。请提供更多上下文使其唯一。".toList,
         fun p => if p = "/f".toList then some ("abab".toList) else none) :=
  ⟨by decide,
   (c8_edit_ambiguity id none
      (fun p => if p = "/f".toList then some ("abab".toList) else none)
      ("/f".toList) ("ab".toList) ("x".toList) ("/f".toList) ("abab".toList)
      (by rfl) (by decide)).1 (by decide)⟩

/-- C1 counterexample: as stated the claim fails on the code in two ways.
With chat_id "system:99" the outbound reply IS addressed to channel "system"
(the part before the first colon), contradicting "never addressed to channel
system"; and the no-colon fallback is not a fixed channel/chat pair — the
origin chat_id is the message's own chat_id, so no single pair covers all
colon-free inputs. -/
theorem c1_counterexample :
    (processInbound (fun _ => { content := none }) (fun _ _ => []) []
        (fun _ => { key := [], history := [] })
        { channel := "system".toList, senderId := "subagent".toList,
          chatId := "system:99".toList, content := "done".toList }
        20).outbound.channel = "system".toList
    ∧ ¬ ∃ fc fi : Str, ∀ cid : Str, splitFirstColon cid = none →
        systemOrigin cid = (fc, fi) := by
  constructor
  · decide
  · rintro ⟨fc, fi, h⟩
    have a1 := h ("42".toList) (by decide)
    have a2 := h ("abc".toList) (by decide)
    have e1 : systemOrigin ("42".toList) = ("cli".toList, "42".toList) := by decide
    have e2 : systemOrigin ("abc".toList) = ("cli".toList, "abc".toList) := by decide
    rw [e1] at a1
    rw [e2] at a2
    have hpair : (("cli".toList, "42".toList) : Str × Str)
        = ("cli".toList, "abc".toList) := a1.trans a2.symm
    exact absurd (congrArg Prod.snd hpair) (by decide)

/-- C1 (amended): for every InboundMessage with channel "system", the
outbound reply is addressed to the parsed origin: if chat_id contains a
colon, the channel is the part before the first colon and the chat_id the
part after it (so it is addressed to "system" only when that prefix is itself
"system"); if chat_id contains no colon, the origin channel falls back to the
fixed default "cli" while the origin chat_id is the message's own chat_id. -/
theorem c1_system_routing_amended (oracle : Nat → LLMResponse)
    (execTool : Str → JVal → Str) (systemPrompt : Str) (store : Str → Session)
    (msg : InboundMessage) (maxIterations : Nat)
    (hsys : msg.channel = "system".toList) :
    ((processInbound oracle execTool systemPrompt store msg maxIterations).outbound.channel,
     (processInbound oracle execTool systemPrompt store msg maxIterations).outbound.chatId)
      = systemOrigin msg.chatId
    ∧ (∀ a b, splitFirstColon msg.chatId = some (a, b) →
        systemOrigin msg.chatId = (a, b))
    ∧ (splitFirstColon msg.chatId = none →
        systemOrigin msg.chatId = ("cli".toList, msg.chatId)) := by
  refine ⟨?_, fun a b hab => ?_, fun hnone => ?_⟩
  · simp [processInbound, hsys, processSystemMessage]
  · simp [systemOrigin, hab]
  · simp [systemOrigin, hnone]

/-- Witness for C1: a system InboundMessage with chat_id "telegram:42" yields
an OutboundMessage with channel "telegram" and chat_id "42". -/
theorem c1_witness :
    (processInbound (fun _ => { content := none }) (fun _ _ => []) []
        (fun _ => { key := [], history := [] })
        { channel := "system".toList, senderId := "subagent".toList,
          chatId := "telegram:42".toList, content := "done".toList }
        20).outbound.channel = "telegram".toList
    ∧ (processInbound (fun _ => { content := none }) (fun _ _ => []) []
        (fun _ => { key := [], history := [] })
        { channel := "system".toList, senderId := "subagent".toList,
          chatId := "telegram:42".toList, content := "done".toList }
        20).outbound.chatId = "42".toList := by
  have h := c1_system_routing_amended (fun _ => { content := none }) (fun _ _ => [])
    [] (fun _ => { key := [], history := [] })
    { channel := "system".toList, senderId := "subagent".toList,
      chatId := "telegram:42".toList, content := "done".toList }
    20 (by rfl)
  have e : systemOrigin ("telegram:42".toList) = ("telegram".toList, "42".toList) := by
    decide
  have hp := h.1.trans e
  exact ⟨congrArg Prod.fst hp, congrArg Prod.snd hp⟩

/-- Per-turn session effect of AgentLoop._process_message (loop.py lines
240-243): the tool-calling loop itself never touches the session; at the end
of the turn exactly one user entry and one assistant entry are appended, in
that order. -/
theorem processMessage_history (oracle : Nat → LLMResponse)
    (execTool : Str → JVal → Str) (systemPrompt : Str) (session : Session)
    (msg : InboundMessage) (maxIterations : Nat) :
    (processMessage oracle execTool systemPrompt session msg maxIterations).session.history
      = session.history
        ++ [⟨"user".toList, msg.content⟩,
            ⟨"assistant".toList,
             (runTurnLoop oracle execTool
               (buildMessages systemPrompt session.historyMsgs msg.content
                 msg.channel msg.chatId)
               0 maxIterations).finalContent.getD primaryFallback⟩] := by
  simp [processMessage, Session.addMessage]

/-- C3: every message processed to completion appends exactly one user entry
and one assistant entry to its session, only at the very end of the turn, so
over any sequence of N messages to the same session the persisted history
grows by exactly 2N entries and the previous history is a prefix of the new
one (no in-place edits). -/
theorem c3_session_history_growth :
    (∀ (oracle : Nat → LLMResponse) (execTool : Str → JVal → Str)
       (systemPrompt : Str) (session : Session) (msg : InboundMessage)
       (maxIterations : Nat), ∃ finalContent,
      (processMessage oracle execTool systemPrompt session msg
          maxIterations).session.history
        = session.history
          ++ [⟨"user".toList, msg.content⟩, ⟨"assistant".toList, finalContent⟩])
    ∧ (∀ (inputs : List TurnInput) (session : Session),
        (processAll session inputs).history.length
          = session.history.length + 2 * inputs.length
        ∧ session.history <+: (processAll session inputs).history) := by
  constructor
  · intro oracle execTool systemPrompt session msg maxIterations
    exact ⟨_, processMessage_history oracle execTool systemPrompt session msg
      maxIterations⟩
  · intro inputs
    induction inputs with
    | nil => intro session; simp [processAll]
    | cons t rest ih =>
      intro session
      have hstep := processMessage_history t.oracle t.execTool t.systemPrompt
        session t.msg t.maxIterations
      have hrec := ih (processMessage t.oracle t.execTool t.systemPrompt session
        t.msg t.maxIterations).session
      constructor
      · have hlen : (processMessage t.oracle t.execTool t.systemPrompt session
            t.msg t.maxIterations).session.history.length
            = session.history.length + 2 := by
          rw [hstep]; simp
        simp only [processAll]
        rw [hrec.1, hlen]
        simp
        ring
      · have hpre : session.history <+: (processMessage t.oracle t.execTool
            t.systemPrompt session t.msg t.maxIterations).session.history := by
          rw [hstep]; exact List.prefix_append _ _
        simp only [processAll]
        exact hpre.trans hrec.2

/-- C4: every spawned subagent turn, whether the background turn completes
normally or raises any exception, publishes exactly one synthetic
InboundMessage, with channel "system", sender_id "subagent" and chat_id
"origin_channel:origin_chat_id"; an exception is caught inside the subagent
wrapper (runSubagent is total) and reported through the same announce path
with status "error", while normal completion is announced with status "ok". -/
theorem c4_subagent_announce (oracle : Nat → Except Str LLMResponse)
    (execTool : Str → JVal → Str) (workspace task label : Str)
    (origin : Str × Str) :
    (runSubagent oracle execTool workspace task label origin).length = 1
    ∧ (∀ m ∈ runSubagent oracle execTool workspace task label origin,
        m.channel = "system".toList ∧ m.senderId = "subagent".toList
        ∧ m.chatId = origin.1 ++ ':' :: origin.2)
    ∧ (∀ e, runSubagentLoop oracle execTool (subagentInitialMessages workspace task)
          0 subagentMaxIterations = .error e →
        runSubagent oracle execTool workspace task label origin
          = [announceMsg label task ("错误信息: ".toList ++ e) origin ("error".toList)])
    ∧ (∀ r, runSubagentLoop oracle execTool (subagentInitialMessages workspace task)
          0 subagentMaxIterations = .ok r →
        runSubagent oracle execTool workspace task label origin
          = [announceMsg label task (r.getD subagentFallback) origin ("ok".toList)]) := by
  cases h : runSubagentLoop oracle execTool (subagentInitialMessages workspace task)
      0 subagentMaxIterations with
  | ok r =>
    refine ⟨by simp [runSubagent, h], ?_, ?_, ?_⟩
    · intro m hm
      simp [runSubagent, h] at hm
      subst hm
      exact ⟨rfl, rfl, rfl⟩
    · intro e he
      cases he
    · intro r2 hr2
      injection hr2 with hh
      subst hh
      simp [runSubagent, h]
  | error e =>
    refine ⟨by simp [runSubagent, h], ?_, ?_, ?_⟩
    · intro m hm
      simp [runSubagent, h] at hm
      subst hm
      exact ⟨rfl, rfl, rfl⟩
    · intro e2 he2
      injection he2 with hh
      subst hh
      simp [runSubagent, h]
    · intro r2 hr2
      cases hr2

/-- Witness for C4: a subagent whose first provider call raises "boom"
publishes exactly one announce message with the error status wording. -/
theorem c4_witness :
    runSubagent (fun _ => .error ("boom".toList)) (fun _ _ => []) [] ("t".toList)
        ("l".toList) ("cli".toList, "direct".toList)
      = [announceMsg ("l".toList) ("t".toList) ("错误信息: ".toList ++ "boom".toList)
          ("cli".toList, "direct".toList) ("error".toList)]
    ∧ (runSubagent (fun _ => .error ("boom".toList)) (fun _ _ => []) [] ("t".toList)
        ("l".toList) ("cli".toList, "direct".toList)).length = 1 := by
  have hloop : runSubagentLoop (fun _ => .error ("boom".toList)) (fun _ _ => [])
      (subagentInitialMessages [] ("t".toList)) 0 subagentMaxIterations
      = .error ("boom".toList) := by
    rw [runSubagentLoop]
    simp [subagentMaxIterations]
  have h := c4_subagent_announce (fun _ => .error ("boom".toList)) (fun _ _ => [])
    [] ("t".toList) ("l".toList) ("cli".toList, "direct".toList)
  exact ⟨h.2.2.1 ("boom".toList) hloop, h.1⟩

/-- The tool-calling loop performs at most `maxIterations` LLM calls when
started at an iteration count not above the budget. -/
theorem runTurnLoop_llmCalls_le (oracle : Nat → LLMResponse)
    (execTool : Str → JVal → Str) (maxIterations : Nat) :
    ∀ (fuel i : Nat) (msgs : List ChatMsg), maxIterations - i ≤ fuel →
      i ≤ maxIterations →
      (runTurnLoop oracle execTool msgs i maxIterations).llmCalls ≤ maxIterations := by
  intro fuel
  induction fuel with
  | zero =>
    intro i msgs hf hi
    have hni : ¬ i < maxIterations := by omega
    rw [runTurnLoop]
    simp [hni]
    omega
  | succ n ih =>
    intro i msgs hf hi
    rw [runTurnLoop]
    by_cases hlt : i < maxIterations
    · simp only [if_pos hlt]
      by_cases htc : (oracle i).hasToolCalls = true
      · simp only [htc, if_true]
        exact ih (i + 1) _ (by omega) (by omega)
      · simp only [Bool.not_eq_true] at htc
        simp [htc]
        omega
    · simp [hlt]
      omega

/-- The loop leaves no final content exactly when either every response up to
the budget carried tool calls, or the first no-tool-call response carried
null content. -/
theorem runTurnLoop_finalContent_none (oracle : Nat → LLMResponse)
    (execTool : Str → JVal → Str) (maxIterations : Nat) :
    ∀ (fuel i : Nat) (msgs : List ChatMsg), maxIterations - i ≤ fuel →
      ((runTurnLoop oracle execTool msgs i maxIterations).finalContent = none ↔
        (∀ j, i ≤ j → j < maxIterations → (oracle j).hasToolCalls = true)
        ∨ (∃ k, i ≤ k ∧ k < maxIterations
            ∧ (∀ j, i ≤ j → j < k → (oracle j).hasToolCalls = true)
            ∧ (oracle k).hasToolCalls = false ∧ (oracle k).content = none)) := by
  intro fuel
  induction fuel with
  | zero =>
    intro i msgs hf
    have hni : ¬ i < maxIterations := by omega
    rw [runTurnLoop]
    simp only [if_neg hni]
    constructor
    · intro _
      left
      intro j hj1 hj2
      exfalso
      omega
    · intro _
      trivial
  | succ n ih =>
    intro i msgs hf
    by_cases hlt : i < maxIterations
    · rw [runTurnLoop]
      simp only [if_pos hlt]
      by_cases htc : (oracle i).hasToolCalls = true
      · simp only [htc, if_true]
        rw [ih (i + 1) _ (by omega)]
        constructor
        · rintro (hall | ⟨k, hk1, hk2, hk3, hk4, hk5⟩)
          · left
            intro j hj1 hj2
            rcases Nat.eq_or_lt_of_le hj1 with rfl | hj
            · exact htc
            · exact hall j (by omega) hj2
          · right
            refine ⟨k, by omega, hk2, ?_, hk4, hk5⟩
            intro j hj1 hj2
            rcases Nat.eq_or_lt_of_le hj1 with rfl | hj
            · exact htc
            · exact hk3 j (by omega) hj2
        · rintro (hall | ⟨k, hk1, hk2, hk3, hk4, hk5⟩)
          · left
            intro j hj1 hj2
            exact hall j (by omega) hj2
          · right
            have hki : k ≠ i := by
              rintro rfl
              rw [htc] at hk4
              cases hk4
            refine ⟨k, by omega, hk2, ?_, hk4, hk5⟩
            intro j hj1 hj2
            exact hk3 j (by omega) hj2
      · have htc2 : (oracle i).hasToolCalls = false := by
          simp only [Bool.not_eq_true] at htc
          exact htc
        simp only [htc2, Bool.false_eq_true, if_false]
        show (oracle i).content = none ↔ _
        constructor
        · intro hcnone
          right
          refine ⟨i, le_refl i, hlt, ?_, htc2, hcnone⟩
          intro j hj1 hj2
          exfalso
          omega
        · rintro (hall | ⟨k, hk1, hk2, hk3, hk4, hk5⟩)
          · have := hall i (le_refl i) hlt
            rw [htc2] at this
            cases this
          · have hki : k = i := by
              by_contra hne
              have hik : i < k := by omega
              have := hk3 i (le_refl i) hik
              rw [htc2] at this
              cases this
            subst hki
            exact hk5
    · have hni : ¬ i < maxIterations := hlt
      rw [runTurnLoop]
      simp only [if_neg hni]
      constructor
      · intro _
        left
        intro j hj1 hj2
        exfalso
        omega
      · intro _
        trivial

/-- C2 counterexample to the claim as stated: a provider whose very first
response carries no tool calls and null content makes the fixed fallback
string become the turn's final content after a single LLM call — the
iteration ceiling (20) is not reached, refuting "the fallback becomes the
final content if and only if the iteration ceiling is reached". -/
theorem c2_counterexample :
    (processMessage (fun _ => { content := none }) (fun _ _ => [])
        [] { key := [], history := [] }
        { channel := "cli".toList, senderId := "u".toList,
          chatId := "direct".toList, content := "hi".toList }
        20).outbound.content = primaryFallback
    ∧ (runTurnLoop (fun _ => { content := none }) (fun _ _ => [])
        (buildMessages [] (Session.historyMsgs { key := [], history := [] })
          ("hi".toList) ("cli".toList) ("direct".toList))
        0 20).llmCalls = 1
    ∧ ((fun _ => ({ content := none } : LLMResponse)) 0).hasToolCalls = false
    ∧ (1 : Nat) < 20 := by
  have hstep : ∀ (oracle : Nat → LLMResponse) (msgs : List ChatMsg),
      (oracle 0).toolCalls = [] →
      runTurnLoop oracle (fun _ _ => []) msgs 0 20
        = { finalContent := (oracle 0).content, llmCalls := 1, messages := msgs } := by
    intro oracle msgs h0
    rw [runTurnLoop]
    simp [LLMResponse.hasToolCalls, h0]
  refine ⟨?_, ?_, by rfl, by norm_num⟩
  · simp only [processMessage]
    rw [hstep _ _ rfl]
    simp
  · rw [hstep _ _ rfl]

/-- C2 (amended): for every sequence of provider responses the primary turn
loop performs at most max_iterations LLM calls and always terminates with a
definite outcome; the fixed fallback string is substituted as the turn's
final content exactly when the loop leaves none — that is, if and only if
either every response up to the ceiling carried tool calls, or the first
no-tool-call response carried null content. -/
theorem c2_turn_budget_amended (oracle : Nat → LLMResponse)
    (execTool : Str → JVal → Str) (systemPrompt : Str) (session : Session)
    (msg : InboundMessage) (maxIterations : Nat) :
    (runTurnLoop oracle execTool
        (buildMessages systemPrompt session.historyMsgs msg.content
          msg.channel msg.chatId) 0 maxIterations).llmCalls ≤ maxIterations
    ∧ (processMessage oracle execTool systemPrompt session msg
        maxIterations).outbound.content
      = (runTurnLoop oracle execTool
          (buildMessages systemPrompt session.historyMsgs msg.content
            msg.channel msg.chatId) 0 maxIterations).finalContent.getD primaryFallback
    ∧ ((runTurnLoop oracle execTool
          (buildMessages systemPrompt session.historyMsgs msg.content
            msg.channel msg.chatId) 0 maxIterations).finalContent = none ↔
        (∀ j, j < maxIterations → (oracle j).hasToolCalls = true)
        ∨ (∃ k, k < maxIterations
            ∧ (∀ j, j < k → (oracle j).hasToolCalls = true)
            ∧ (oracle k).hasToolCalls = false ∧ (oracle k).content = none)) := by
  refine ⟨runTurnLoop_llmCalls_le oracle execTool maxIterations maxIterations 0 _
      (by omega) (by omega), by simp [processMessage], ?_⟩
  rw [runTurnLoop_finalContent_none oracle execTool maxIterations maxIterations 0 _
      (by omega)]
  constructor
  · rintro (hall | ⟨k, _, hk2, hk3, hk4, hk5⟩)
    · left
      intro j hj
      exact hall j (by omega) hj
    · right
      exact ⟨k, hk2, fun j hj => hk3 j (by omega) hj, hk4, hk5⟩
  · rintro (hall | ⟨k, hk2, hk3, hk4, hk5⟩)
    · left
      intro j _ hj
      exact hall j hj
    · right
      exact ⟨k, by omega, hk2, fun j _ hj => hk3 j hj, hk4, hk5⟩

/-- Unfolding of the property loop on a cons cell. -/
theorem validateProps_cons_eq (f : String × JVal) (rest : List (String × JVal))
    (props : List (String × Schema)) (path : String) :
    validateProps (f :: rest) props path
      = (props.find? (fun q => q.1 == f.1)).elim []
          (fun p => validate f.2 p.2 (childPath path f.1))
        ++ validateProps rest props path := by
  rw [validateProps]
  congr 1
  split
  · rename_i p hp
    simp [hp]
  · rename_i hp
    simp [hp]

/-- A violation produced for a field with a declared property schema is in the
property-loop output. -/
theorem mem_validateProps (props : List (String × Schema)) (path : String) :
    ∀ (fields : List (String × JVal)) (k : String) (v : JVal) (p : String × Schema),
      (k, v) ∈ fields → props.find? (fun q => q.1 == k) = some p →
      ∀ x ∈ validate v p.2 (childPath path k), x ∈ validateProps fields props path := by
  intro fields
  induction fields with
  | nil =>
    intro k v p hmem
    cases hmem
  | cons f rest ih =>
    intro k v p hmem hfind x hx
    rw [validateProps_cons_eq, List.mem_append]
    rcases List.mem_cons.mp hmem with heq | htail
    · left
      subst heq
      show x ∈ (props.find? (fun q => q.1 == k)).elim []
        (fun p => validate v p.2 (childPath path k))
      rw [hfind]
      exact hx
    · right
      exact ih k v p htail hfind x hx

/-- Unfolding of Tool._validate on an object value against an object-typed
schema: the type check passes and the violations are the enum errors followed
by the missing-required errors and the nested property errors (the numeric,
string-length and array branches are off for type "object"). -/
theorem validate_object_eq (en : Option (List JVal)) (mn mx : Option Int)
    (mnl mxl : Option Nat) (props : List (String × Schema)) (req : List String)
    (items : Option Schema) (fields : List (String × JVal)) (path : String) :
    validate (.obj fields) (.mk (some "object") en mn mx mnl mxl props req items) path
      = (match en with
         | some vs =>
            if vs.any (fun w => JVal.beq w (.obj fields)) then []
            else [(if path == "" then "parameter" else path)
                    ++ " must be one of " ++ enumText vs]
         | none => [])
        ++ (req.filterMap (fun k =>
              if fields.any (fun f => f.1 == k) then none
              else some ("missing required " ++ childPath path k))
            ++ validateProps fields props path) := by
  have h1 : typeCheckFails (some "object") (.obj fields) = false := rfl
  have h2 : ((some "object" : Option String) == some "integer") = false := rfl
  have h3 : ((some "object" : Option String) == some "number") = false := rfl
  have h4 : ((some "object" : Option String) == some "string") = false := rfl
  have h5 : ((some "object" : Option String) == some "object") = true := rfl
  have h6 : ((some "object" : Option String) == some "array") = false := rfl
  simp only [validate.eq_def, h1, h2, h3, h4, h5, h6, Bool.false_or,
    Bool.or_self, if_false, if_true, Bool.false_eq_true, List.nil_append,
    List.append_nil, ite_false, ite_true]

/-- Unfolding of Tool._validate on an integer value against an integer-typed
schema whose maximum is exceeded: the "must be <=" violation is present. -/
theorem validate_int_max_mem (t : Option String) (en : Option (List JVal))
    (mn : Option Int) (m v : Int) (mnl mxl : Option Nat)
    (props : List (String × Schema)) (req : List String) (items : Option Schema)
    (path : String) (ht : t = some "integer") (hgt : m < v) :
    ((if path == "" then "parameter" else path) ++ " must be <= " ++ toString m)
      ∈ validate (.int v) (.mk t en mn (some m) mnl mxl props req items) path := by
  subst ht
  rw [validate.eq_def]
  simp [typeCheckFails, inTypeMap, typeMatches, JVal.numVal]
  exact Or.inr (Or.inr hgt)

/-- C7: validate_params returns a list of violation strings checked before
execution: a mapping missing a declared required key yields a violation list
containing the missing-required message, and a mapping whose integer-typed
property exceeds its declared maximum yields one containing the must-be-<=
message; in both cases the list is non-empty and the registry rejects the
call before the tool's execute runs, returning the validation text instead. -/
theorem c7_schema_validation_rejects :
    (∀ (tool : ToolModel) (t : Option String) (en : Option (List JVal))
       (mn mx : Option Int) (mnl mxl : Option Nat)
       (props : List (String × Schema)) (req : List String)
       (items : Option Schema) (fields : List (String × JVal)) (k : String),
      tool.parameters = .mk t en mn mx mnl mxl props req items →
      t.getD "object" = "object" →
      k ∈ req → (∀ f ∈ fields, f.1 ≠ k) →
      ∃ errs, validateParams tool.parameters (.obj fields) = .ok errs
        ∧ ("missing required " ++ k) ∈ errs ∧ errs ≠ []
        ∧ (registryExecute tool (.obj fields)).1 = false
        ∧ (registryExecute tool (.obj fields)).2
            = "Invalid parameters: " ++ String.intercalate "; " errs)
    ∧ (∀ (tool : ToolModel) (t : Option String) (en : Option (List JVal))
       (mn mx : Option Int) (mnl mxl : Option Nat)
       (props : List (String × Schema)) (req : List String)
       (items : Option Schema) (fields : List (String × JVal)) (k : String)
       (sub : Schema) (m v : Int),
      tool.parameters = .mk t en mn mx mnl mxl props req items →
      t.getD "object" = "object" →
      props.find? (fun q => q.1 == k) = some (k, sub) →
      sub.type = some "integer" → sub.maximum = some m →
      (k, JVal.int v) ∈ fields → m < v →
      ∃ errs, validateParams tool.parameters (.obj fields) = .ok errs
        ∧ ((if k == "" then "parameter" else k) ++ " must be <= " ++ toString m) ∈ errs
        ∧ errs ≠ []
        ∧ (registryExecute tool (.obj fields)).1 = false) := by
  constructor
  · intro tool t en mn mx mnl mxl props req items fields k hp hobj hreq hnone
    have hvp : validateParams tool.parameters (.obj fields)
        = .ok (validate (.obj fields)
            (.mk (some "object") en mn mx mnl mxl props req items) "") := by
      rw [hp]
      simp only [validateParams]
      simp [hobj]
    have hmem : ("missing required " ++ k)
        ∈ validate (.obj fields)
            (.mk (some "object") en mn mx mnl mxl props req items) "" := by
      rw [validate_object_eq]
      refine List.mem_append.mpr (Or.inr (List.mem_append.mpr (Or.inl ?_)))
      refine List.mem_filterMap.mpr ⟨k, hreq, ?_⟩
      have hany : fields.any (fun f => f.1 == k) = false := by
        simp only [List.any_eq_false, beq_iff_eq]
        exact fun f hf => hnone f hf
      rw [hany]
      simp [childPath]
    have hne := List.ne_nil_of_mem hmem
    have hie : (validate (.obj fields)
        (.mk (some "object") en mn mx mnl mxl props req items) "").isEmpty = false := by
      cases he : validate (.obj fields)
          (.mk (some "object") en mn mx mnl mxl props req items) "" with
      | nil => exact absurd he hne
      | cons a l => rfl
    refine ⟨_, hvp, hmem, hne, ?_, ?_⟩
    · simp [registryExecute, hvp, hie]
    · simp [registryExecute, hvp, hie]
  · intro tool t en mn mx mnl mxl props req items fields k sub m v hp hobj hfind
      hst hsmax hfmem hgt
    rcases sub with ⟨t2, en2, mn2, mx2, mnl2, mxl2, props2, req2, items2⟩
    simp only [Schema.type] at hst
    simp only [Schema.maximum] at hsmax
    subst hst
    subst hsmax
    have hvp : validateParams tool.parameters (.obj fields)
        = .ok (validate (.obj fields)
            (.mk (some "object") en mn mx mnl mxl props req items) "") := by
      rw [hp]
      simp only [validateParams]
      simp [hobj]
    have hsubmem := validate_int_max_mem (some "integer") en2 mn2 m v mnl2 mxl2
      props2 req2 items2 (childPath "" k) rfl hgt
    have hmemP : ((if childPath "" k == "" then "parameter" else childPath "" k)
          ++ " must be <= " ++ toString m)
        ∈ validateProps fields props "" :=
      mem_validateProps props "" fields k (JVal.int v)
        (k, .mk (some "integer") en2 mn2 (some m) mnl2 mxl2 props2 req2 items2)
        hfmem hfind _ hsubmem
    have hmem : ((if k == "" then "parameter" else k) ++ " must be <= " ++ toString m)
        ∈ validate (.obj fields)
            (.mk (some "object") en mn mx mnl mxl props req items) "" := by
      rw [validate_object_eq]
      refine List.mem_append.mpr (Or.inr (List.mem_append.mpr (Or.inr ?_)))
      have hck : childPath "" k = k := by simp [childPath]
      rw [hck] at hmemP
      exact hmemP
    have hne := List.ne_nil_of_mem hmem
    have hie : (validate (.obj fields)
        (.mk (some "object") en mn mx mnl mxl props req items) "").isEmpty = false := by
      cases he : validate (.obj fields)
          (.mk (some "object") en mn mx mnl mxl props req items) "" with
      | nil => exact absurd he hne
      | cons a l => rfl
    refine ⟨_, hvp, hmem, hne, ?_⟩
    simp [registryExecute, hvp, hie]

/-- Witness for C7: a tool requiring "path" with an integer property "count"
of maximum 10, called with only count = 11, is rejected before execute runs,
with both the missing-required and the exceeds-maximum violations present. -/
theorem c7_witness :
    (registryExecute
        { name := "t",
          parameters := .mk (some "object") none none none none none
            [("count", .mk (some "integer") none none (some 10) none none [] [] none)]
            ["path"] none,
          run := fun _ => "ran" }
        (.obj [("count", JVal.int 11)])).1 = false
    ∧ ∃ errs, validateParams
        (.mk (some "object") none none none none none
          [("count", .mk (some "integer") none none (some 10) none none [] [] none)]
          ["path"] none)
        (.obj [("count", JVal.int 11)]) = .ok errs
      ∧ ("missing required " ++ "path") ∈ errs
      ∧ ((if "count" == "" then "parameter" else "count") ++ " must be <= "
          ++ toString (10 : Int)) ∈ errs := by
  obtain ⟨errs1, h1, hm1, hne1, hex1, _⟩ :=
    c7_schema_validation_rejects.1
      { name := "t",
        parameters := .mk (some "object") none none none none none
          [("count", .mk (some "integer") none none (some 10) none none [] [] none)]
          ["path"] none,
        run := fun _ => "ran" }
      (some "object") none none none none none
      [("count", .mk (some "integer") none none (some 10) none none [] [] none)]
      ["path"] none
      [("count", JVal.int 11)] "path"
      rfl rfl (by simp)
      (by
        intro f hf
        rcases List.mem_singleton.mp hf with rfl
        decide)
  obtain ⟨errs2, h2, hm2, _, _⟩ :=
    c7_schema_validation_rejects.2
      { name := "t",
        parameters := .mk (some "object") none none none none none
          [("count", .mk (some "integer") none none (some 10) none none [] [] none)]
          ["path"] none,
        run := fun _ => "ran" }
      (some "object") none none none none none
      [("count", .mk (some "integer") none none (some 10) none none [] [] none)]
      ["path"] none
      [("count", JVal.int 11)] "count"
      (.mk (some "integer") none none (some 10) none none [] [] none)
      10 11
      rfl rfl rfl rfl rfl (List.mem_singleton.mpr rfl) (by norm_num)
  have hes : errs1 = errs2 := by
    rw [h1] at h2
    exact Except.ok.inj h2
  exact ⟨hex1, errs1, h1, hm1, hes ▸ hm2⟩

/-- Witness for C2 (amended): a concrete turn whose first response is plain
content makes exactly one call, within the budget, and the outbound content
is the loop's final content with the fallback as default. -/
theorem c2_witness :
    (runTurnLoop (fun _ => { content := some ("ok".toList) }) (fun _ _ => [])
        (buildMessages [] (Session.historyMsgs { key := [], history := [] })
          ("hi".toList) ("cli".toList) ("direct".toList)) 0 20).llmCalls ≤ 20
    ∧ (processMessage (fun _ => { content := some ("ok".toList) }) (fun _ _ => [])
        [] { key := [], history := [] }
        { channel := "cli".toList, senderId := "u".toList,
          chatId := "direct".toList, content := "hi".toList }
        20).outbound.content
      = (runTurnLoop (fun _ => { content := some ("ok".toList) }) (fun _ _ => [])
          (buildMessages [] (Session.historyMsgs { key := [], history := [] })
            ("hi".toList) ("cli".toList) ("direct".toList))
          0 20).finalContent.getD primaryFallback := by
  have h := c2_turn_budget_amended (fun _ => { content := some ("ok".toList) })
    (fun _ _ => []) [] { key := [], history := [] }
    { channel := "cli".toList, senderId := "u".toList,
      chatId := "direct".toList, content := "hi".toList } 20
  exact ⟨h.1, h.2.1⟩

/-- Witness for C3: one concrete processed message grows an empty session's
history by exactly one user plus one assistant entry, and the old history is
a prefix of the new one. -/
theorem c3_witness :
    (processAll { key := [], history := [] }
        [{ oracle := fun _ => { content := some ("ok".toList) },
           execTool := fun _ _ => [], systemPrompt := [],
           msg := { channel := "cli".toList, senderId := "u".toList,
                    chatId := "direct".toList, content := "hi".toList },
           maxIterations := 20 }]).history.length
      = ({ key := [], history := [] } : Session).history.length + 2 * 1
    ∧ ({ key := [], history := [] } : Session).history
        <+: (processAll { key := [], history := [] }
          [{ oracle := fun _ => { content := some ("ok".toList) },
             execTool := fun _ _ => [], systemPrompt := [],
             msg := { channel := "cli".toList, senderId := "u".toList,
                      chatId := "direct".toList, content := "hi".toList },
             maxIterations := 20 }]).history := by
  have h := c3_session_history_growth.2
    [{ oracle := fun _ => { content := some ("ok".toList) },
       execTool := fun _ _ => [], systemPrompt := [],
       msg := { channel := "cli".toList, senderId := "u".toList,
                chatId := "direct".toList, content := "hi".toList },
       maxIterations := 20 }]
    { key := [], history := [] }
  exact ⟨h.1, h.2⟩

/-- Witness for C5 (amended): at workspace /ws with restriction on, timeout
60 and no API key, the subagent registry equals the filtered primary registry
and contains neither the message nor the spawn tool. -/
theorem c5_witness :
    subagentTools ("/ws".toList) true 60 none
      = (primaryTools ("/ws".toList) true 60 none false).filter
          (fun t => !(["edit_file".toList, "message".toList, "spawn".toList,
                       "cron".toList].contains t.toolName))
    ∧ "message".toList
        ∉ (subagentTools ("/ws".toList) true 60 none).map ToolInstance.toolName
    ∧ "spawn".toList
        ∉ (subagentTools ("/ws".toList) true 60 none).map ToolInstance.toolName := by
  have h := c5_subagent_registry_amended ("/ws".toList) true 60 none false
  exact ⟨h.1, h.2.1, h.2.2⟩

/-- Witness for C6: a raised exception with text "boom" is returned as the
synthetic error response with empty tool calls and finish_reason "error". -/
theorem c6_witness :
    litellmChat (.error ("boom".toList))
      = { content := some (llmErrorPrefix ++ "boom".toList), toolCalls := [],
          finishReason := "error".toList, reasoningContent := none } :=
  c6_provider_error_recovery.1 ("boom".toList)
